import Mathlib

set_option maxHeartbeats 1000000

namespace CostAnalysis

/-!
Shallow embedding of the cost-ingestion core of spaceone cost-analysis:
the job service (service/job_service.py) and the budget info converters
(info/budget_info.py).  Stateful manager calls are modelled by explicit
state passing over a `State` record; external collaborators (plugin
manager, secret manager, storage layer) are parameters gathered in `Env`.
An event trace on the state records the side-effecting manager calls so
that ordering and no-op properties are observable.
-/

/-! ## Budget value objects (model/budget_model.py, as used by budget_info.py) -/

structure PlannedLimit where
  date : String
  limit : Int
  deriving DecidableEq

structure MonthlyCost where
  date : String
  usd_cost : Int
  deriving DecidableEq

structure Notification where
  threshold : Int
  unit : String
  notification_type : String
  deriving DecidableEq

/-- The Budget value object.  Monetary amounts are carried abstractly as
integers (the converters only copy them), dates as strings, datetimes as
natural-number timestamps, and dict-valued fields as association lists. -/
structure Budget where
  budget_id : String
  name : String
  limit : Int
  total_usd_cost : Int
  project_id : Option String
  project_group_id : Option String
  planned_limits : Option (List PlannedLimit)
  monthly_costs : Option (List MonthlyCost)
  cost_types : Option (List (String × String))
  time_unit : String
  start : Option String
  end_ : Option String
  notifications : Option (List Notification)
  tags : Option (List (String × String))
  domain_id : String
  created_at : Option Nat
  updated_at : Option Nat
  deriving DecidableEq

/-! ## Protobuf messages (budget_pb2), modelled structurally.
A field that the constructor is not given (or is given the value None)
is unset, modelled as `none`. -/

structure PlannedLimitMsg where
  date : String
  limit : Int
  deriving DecidableEq

structure MonthlyBudgetCostMsg where
  date : String
  usd_cost : Int
  deriving DecidableEq

structure BudgetNotificationMsg where
  threshold : Int
  unit : String
  notification_type : String
  deriving DecidableEq

structure BudgetInfoMsg where
  budget_id : String
  name : String
  limit : Int
  total_usd_cost : Int
  project_id : Option String
  project_group_id : Option String
  planned_limits : Option (List PlannedLimitMsg)
  monthly_costs : Option (List MonthlyBudgetCostMsg)
  cost_types : Option (List (String × String))
  time_unit : Option String
  start : Option String
  end_ : Option String
  notifications : Option (List BudgetNotificationMsg)
  tags : Option (List (String × String))
  domain_id : Option String
  created_at : Option String
  updated_at : Option String
  deriving DecidableEq

/-- Modelled from the spec: the utility date_to_string of spaceone.core.utils
is outside the reviewed sources; dates are carried abstractly as strings and
the conversion is the identity on that carrier (None maps to None). -/
def date_to_string (d : Option String) : Option String := d

/-- Modelled from the spec: the utility datetime_to_iso8601 of
spaceone.core.utils is outside the reviewed sources; it renders a datetime
as its ISO-8601 string, modelled as rendering the timestamp (None maps to
None). -/
def datetime_to_iso8601 (d : Option Nat) : Option String :=
  d.map (fun n => toString n)

/-- Modelled from the spec: change_struct_type of the pygrpc message-type
utilities is outside the reviewed sources; it converts a dict to a protobuf
Struct, modelled as the identity on the association-list carrier (None maps
to None). -/
def change_struct_type (d : Option (List (String × String))) :
    Option (List (String × String)) := d

/-- PlannedLimitsInfo from budget_info.py: None becomes the empty list, then
each value object is converted field-wise and appended to the output list. -/
def PlannedLimitsInfo (planned_limit_vos : Option (List PlannedLimit)) :
    List PlannedLimitMsg :=
  (planned_limit_vos.getD []).foldl
    (fun acc vo => acc ++ [({ date := vo.date, limit := vo.limit } : PlannedLimitMsg)]) []

/-- MonthlyBudgetCostsInfo from budget_info.py. -/
def MonthlyBudgetCostsInfo (monthly_cost_vos : Option (List MonthlyCost)) :
    List MonthlyBudgetCostMsg :=
  (monthly_cost_vos.getD []).foldl
    (fun acc vo =>
      acc ++ [({ date := vo.date, usd_cost := vo.usd_cost } : MonthlyBudgetCostMsg)]) []

/-- BudgetNotificationsInfo from budget_info.py. -/
def BudgetNotificationsInfo (notification_vos : Option (List Notification)) :
    List BudgetNotificationMsg :=
  (notification_vos.getD []).foldl
    (fun acc vo =>
      acc ++ [({ threshold := vo.threshold, unit := vo.unit,
                 notification_type := vo.notification_type } : BudgetNotificationMsg)]) []

/-- BudgetInfo from budget_info.py: the info dict always carries the six
identity fields; when minimal is false it is updated with the detail
fields, each converted from the value object. -/
def BudgetInfo (budget_vo : Budget) (minimal : Bool) : BudgetInfoMsg :=
  if minimal then
    { budget_id := budget_vo.budget_id
      name := budget_vo.name
      limit := budget_vo.limit
      total_usd_cost := budget_vo.total_usd_cost
      project_id := budget_vo.project_id
      project_group_id := budget_vo.project_group_id
      planned_limits := none
      monthly_costs := none
      cost_types := none
      time_unit := none
      start := none
      end_ := none
      notifications := none
      tags := none
      domain_id := none
      created_at := none
      updated_at := none }
  else
    { budget_id := budget_vo.budget_id
      name := budget_vo.name
      limit := budget_vo.limit
      total_usd_cost := budget_vo.total_usd_cost
      project_id := budget_vo.project_id
      project_group_id := budget_vo.project_group_id
      planned_limits := some (PlannedLimitsInfo budget_vo.planned_limits)
      monthly_costs := some (MonthlyBudgetCostsInfo budget_vo.monthly_costs)
      cost_types :=
        match budget_vo.cost_types with
        | some _ => change_struct_type budget_vo.cost_types
        | none => none
      time_unit := some budget_vo.time_unit
      start := date_to_string budget_vo.start
      end_ := date_to_string budget_vo.end_
      notifications := some (BudgetNotificationsInfo budget_vo.notifications)
      tags := change_struct_type budget_vo.tags
      domain_id := some budget_vo.domain_id
      created_at := datetime_to_iso8601 budget_vo.created_at
      updated_at := datetime_to_iso8601 budget_vo.updated_at }

/-! ## Job service data model (model/job_model.py, job_task_model.py,
data_source_model.py, cost_model.py as used by service/job_service.py).
Datetimes are natural-number timestamps; opaque dicts are association
lists of strings. -/

inductive JobStatus where
  | PENDING
  | IN_PROGRESS
  | SUCCESS
  | ERROR
  | CANCELED
  deriving DecidableEq

inductive TaskStatus where
  | PENDING
  | IN_PROGRESS
  | SUCCESS
  | ERROR
  deriving DecidableEq

structure Job where
  job_id : String
  data_source_id : String
  domain_id : String
  status : JobStatus
  remained_tasks : Nat
  created_at : Nat
  last_changed_at : Option Nat
  deriving DecidableEq

structure JobTask where
  job_task_id : String
  job_id : String
  data_source_id : String
  domain_id : String
  status : TaskStatus
  ingested_count : Nat
  error_message : String
  deriving DecidableEq

structure PluginInfo where
  secret_id : Option String
  options : List (String × String)
  schema : Option String
  deriving DecidableEq

structure DataSource where
  data_source_id : String
  domain_id : String
  plugin_info : PluginInfo
  last_synchronized_at : Option Nat
  deriving DecidableEq

/-- One normalized cost record as written by the cost record writer. -/
structure CostRecord where
  job_id : String
  data_source_id : String
  domain_id : String
  original_currency : String
  original_cost : Int
  billed_at : Nat
  deriving DecidableEq

/-- One raw cost row as yielded inside a batch by the plugin; only the
fields the normalization step reads are modelled.  A missing key is none. -/
structure RawCost where
  cost : Option Int
  currency : Option String
  billed_at : Option String
  deriving DecidableEq

/-- One batch yielded by the plugin stream; the results key may be absent,
in which case the loop reads the default empty list. -/
structure Batch where
  results : Option (List RawCost)
  deriving DecidableEq

/-- Observable side-effecting manager calls, recorded in order on the
state's trace. -/
inductive Event where
  | taskInProgress (job_task_id : String)
  | taskSuccess (job_task_id : String) (count : Nat)
  | taskError (job_task_id : String) (msg : String)
  | createCost (record : CostRecord)
  | fetchStart (options : List (String × String))
      (secret_data : List (String × String)) (schema : Option String)
  | jobSuccess (job_id : String)
  | updateLastSync (data_source_id : String) (ts : Nat)
  | reconcile (job_id : String)
  | rollback (job_id : String)
  deriving DecidableEq

/-- The persistent store the managers operate on, plus the event trace. -/
structure State where
  jobs : List Job
  job_tasks : List JobTask
  data_sources : List DataSource
  costs : List CostRecord
  trace : List Event
  deriving DecidableEq

def addTrace (st : State) (e : Event) : State :=
  { st with trace := st.trace ++ [e] }

def findJob (st : State) (job_id domain_id : String) : Option Job :=
  st.jobs.find? (fun j => j.job_id == job_id && j.domain_id == domain_id)

def findTask (st : State) (job_task_id domain_id : String) : Option JobTask :=
  st.job_tasks.find? (fun t => t.job_task_id == job_task_id && t.domain_id == domain_id)

def findDS (st : State) (data_source_id domain_id : String) : Option DataSource :=
  st.data_sources.find? (fun d => d.data_source_id == data_source_id && d.domain_id == domain_id)

def mapJob (st : State) (job_id domain_id : String) (f : Job → Job) : State :=
  { st with jobs :=
      st.jobs.map (fun j => if j.job_id == job_id && j.domain_id == domain_id then f j else j) }

def mapTask (st : State) (job_task_id domain_id : String) (f : JobTask → JobTask) : State :=
  { st with job_tasks :=
      st.job_tasks.map (fun t =>
        if t.job_task_id == job_task_id && t.domain_id == domain_id then f t else t) }

def mapDS (st : State) (data_source_id domain_id : String) (f : DataSource → DataSource) : State :=
  { st with data_sources :=
      st.data_sources.map (fun d =>
        if d.data_source_id == data_source_id && d.domain_id == domain_id then f d else d) }

/-! ## Manager operations.  The manager classes themselves are outside the
reviewed sources (only job_service.py and budget_info.py are); their
behaviour is modelled from the spec's collaborator contracts. -/

namespace JobTaskManager

/-- Modelled from the spec: getJobTask(id, domain) returns the task, or
fails NotFound if absent (JobTaskManager is outside the sources). -/
def get_job_task (st : State) (job_task_id domain_id : String) : Except String JobTask :=
  match findTask st job_task_id domain_id with
  | some t => Except.ok t
  | none => Except.error "ERROR_NOT_FOUND JobTask"

/-- Modelled from the spec: changeInProgress sets the task status to
IN_PROGRESS (section 4.3; JobTaskManager is outside the sources). -/
def change_in_progress_status (st : State) (t : JobTask) : State × JobTask :=
  let t2 := { t with status := TaskStatus.IN_PROGRESS }
  (addTrace (mapTask st t.job_task_id t.domain_id (fun _ => t2))
    (Event.taskInProgress t.job_task_id), t2)

/-- Modelled from the spec: changeSuccess sets status SUCCESS and
ingested_count and decrements the parent job's remained_tasks
(section 4.3; JobTaskManager is outside the sources). -/
def change_success_status (st : State) (t : JobTask) (count : Nat) : State :=
  let t2 := { t with status := TaskStatus.SUCCESS, ingested_count := count }
  let st1 := mapTask st t.job_task_id t.domain_id (fun _ => t2)
  let st2 := mapJob st1 t.job_id t.domain_id
    (fun j => { j with remained_tasks := j.remained_tasks - 1 })
  addTrace st2 (Event.taskSuccess t.job_task_id count)

/-- Modelled from the spec: changeError sets status ERROR and the error
message and decrements the parent job's remained_tasks (section 4.3); the
parent job's status becomes ERROR, since the job's aggregate status is a
function of its task statuses (section 3) and the close step branches on
Job.status == ERROR (section 4.2).  JobTaskManager is outside the sources. -/
def change_error_status (st : State) (t : JobTask) (msg : String) : State :=
  let t2 := { t with status := TaskStatus.ERROR, error_message := msg }
  let st1 := mapTask st t.job_task_id t.domain_id (fun _ => t2)
  let st2 := mapJob st1 t.job_id t.domain_id
    (fun j => { j with remained_tasks := j.remained_tasks - 1, status := JobStatus.ERROR })
  addTrace st2 (Event.taskError t.job_task_id msg)

end JobTaskManager

namespace JobManager

/-- Modelled from the spec: getJob(id, domain) returns the job, or fails
NotFound if absent (JobManager is outside the sources). -/
def get_job (st : State) (job_id domain_id : String) : Except String Job :=
  match findJob st job_id domain_id with
  | some j => Except.ok j
  | none => Except.error "ERROR_NOT_FOUND Job"

/-- Modelled from the spec: changeSuccess transitions the job to SUCCESS
(section 4.4; JobManager is outside the sources). -/
def change_success_status (st : State) (job : Job) : State :=
  addTrace (mapJob st job.job_id job.domain_id (fun j => { j with status := JobStatus.SUCCESS }))
    (Event.jobSuccess job.job_id)

end JobManager

namespace DataSourceManager

/-- Modelled from the spec: getDataSource returns the data source, or fails
NotFound if absent (DataSourceManager is outside the sources). -/
def get_data_source (st : State) (data_source_id domain_id : String) : Except String DataSource :=
  match findDS st data_source_id domain_id with
  | some d => Except.ok d
  | none => Except.error "ERROR_NOT_FOUND DataSource"

/-- Modelled from the spec: update_data_source_by_vo applied to the
last_synchronized_at field, as the orchestrator's finalize step does
(DataSourceManager is outside the sources). -/
def update_last_sync (st : State) (data_source_id domain_id : String) (ts : Nat) : State :=
  addTrace
    (mapDS st data_source_id domain_id (fun d => { d with last_synchronized_at := some ts }))
    (Event.updateLastSync data_source_id ts)

end DataSourceManager

/-! ## Storage-layer structured filter, modelled from the spec (section 6):
field, value, operator with operator among eq, not, gte. -/

inductive FilterOp where
  | eq
  | notOp
  | gte
  deriving DecidableEq

inductive FilterValue where
  | str (s : String)
  | ts (n : Nat)
  deriving DecidableEq

structure Condition where
  k : String
  v : FilterValue
  o : FilterOp
  deriving DecidableEq

def costField (c : CostRecord) (k : String) : Option FilterValue :=
  if k = "billed_at" then some (FilterValue.ts c.billed_at)
  else if k = "data_source_id" then some (FilterValue.str c.data_source_id)
  else if k = "domain_id" then some (FilterValue.str c.domain_id)
  else if k = "job_id" then some (FilterValue.str c.job_id)
  else none

def evalOp : FilterOp → FilterValue → FilterValue → Bool
  | FilterOp.eq, FilterValue.str a, FilterValue.str b => a == b
  | FilterOp.eq, FilterValue.ts a, FilterValue.ts b => a == b
  | FilterOp.notOp, FilterValue.str a, FilterValue.str b => a != b
  | FilterOp.notOp, FilterValue.ts a, FilterValue.ts b => a != b
  | FilterOp.gte, FilterValue.str a, FilterValue.str b => decide (b ≤ a)
  | FilterOp.gte, FilterValue.ts a, FilterValue.ts b => decide (b ≤ a)
  | _, _, _ => false

def matchCond (c : CostRecord) (cond : Condition) : Bool :=
  match costField c cond.k with
  | some fv => evalOp cond.o fv cond.v
  | none => false

namespace CostManager

/-- Modelled from the spec: createCost validates and persists a single
normalized record (section 4.5; CostManager is outside the sources).
Validation failure is represented separately in the environment. -/
def create_cost (st : State) (c : CostRecord) : State :=
  addTrace { st with costs := st.costs ++ [c] } (Event.createCost c)

/-- Modelled from the spec: filterCosts(dataSourceId, domainId, jobId)
returns the deletable record set matching all three keys (section 4.5;
CostManager is outside the sources). -/
def filter_costs (st : State) (data_source_id domain_id job_id : String) : List CostRecord :=
  st.costs.filter
    (fun c => c.data_source_id == data_source_id && c.domain_id == domain_id
      && c.job_id == job_id)

/-- Modelled from the spec: listCosts(query) lists the records matching
every condition of the structured filter (sections 4.5 and 6; CostManager
and the storage layer are outside the sources). -/
def list_costs (st : State) (conds : List Condition) : List CostRecord :=
  st.costs.filter (fun c => conds.all (matchCond c))

end CostManager

/-! ## External collaborators of the job service, as an environment of
functions (plugin manager, secret manager, the external timestamp parser,
and the possibility of a validation failure on cost creation).  A failing
call is an Except.error carrying the exception's message. -/

structure Env where
  /-- get_data_source_plugin_endpoint: resolves (endpoint, updated_version). -/
  resolveEndpoint : PluginInfo → String → Except String (String × Option String)
  /-- the plugin manager call that opens the connection to the endpoint
  (named initialize in the source). -/
  init_plugin : String → Except String Unit
  /-- SecretManager.get_secret_data(secret_id, domain_id). -/
  getSecret : String → String → Except String (List (String × String))
  /-- the plugin's lazy batch stream for (options, secret_data, schema,
  task_options): the batches yielded, and an optional exception raised by
  the generator after the yielded prefix (a mid-stream failure is a
  shorter batch list with an error). -/
  fetch : List (String × String) → List (String × String) → Option String →
    List (String × String) → List Batch × Option String
  /-- spaceone.core.utils.iso8601_to_datetime: none is a parse failure. -/
  parseIso : String → Option Nat
  /-- validation outcome of CostManager.create_cost for a record: some
  message is a ValidationError raised before the record is persisted. -/
  costError : CostRecord → Option String

/-! ## service/job_service.py, translated statement by statement. -/

/-- _get_secret_data from job_service.py: a falsy secret_id (absent, or the
empty string under Python truthiness) yields the empty mapping, otherwise
the secret payload is fetched from the secret manager. -/
def _get_secret_data (env : Env) (secret_id : Option String) (domain_id : String) :
    Except String (List (String × String)) :=
  match secret_id with
  | none => Except.ok []
  | some sid => if sid = "" then Except.ok [] else env.getSecret sid domain_id

/-- _create_cost_data from job_service.py, the normalization of one raw
row before it is handed to the cost record writer: provenance fields come
from the owning task, original_currency defaults to USD, original_cost
defaults to 0, and billed_at is parsed from the ISO-8601 string; a missing
billed_at key (KeyError) or a parse failure raises. -/
def _create_cost_data (env : Env) (cost_data : RawCost) (job_task_vo : JobTask) :
    Except String CostRecord :=
  match cost_data.billed_at with
  | none => Except.error "KeyError: billed_at"
  | some s =>
    match env.parseIso s with
    | none => Except.error "ERROR_INVALID_ISO8601 billed_at"
    | some ts =>
      Except.ok
        { job_id := job_task_vo.job_id
          data_source_id := job_task_vo.data_source_id
          domain_id := job_task_vo.domain_id
          original_currency := cost_data.currency.getD "USD"
          original_cost := cost_data.cost.getD 0
          billed_at := ts }

/-- One iteration of the inner row loop: normalize the row, let the writer
validate it, and persist it.  The state is threaded even on failure:
records persisted before an exception stay persisted. -/
def ingest_row (env : Env) (st : State) (job_task_vo : JobTask) (row : RawCost) :
    State × Except String Unit :=
  match _create_cost_data env row job_task_vo with
  | Except.error e => (st, Except.error e)
  | Except.ok c =>
    match env.costError c with
    | some e => (st, Except.error e)
    | none => (CostManager.create_cost st c, Except.ok Unit.unit)

/-- The inner row loop over one batch's results, carrying the running
count; the count is incremented for a row before the row is processed,
exactly as in the source. -/
def ingest_rows (env : Env) (job_task_vo : JobTask) :
    List RawCost → Nat → State → State × Except String Nat
  | [], count, st => (st, Except.ok count)
  | row :: rest, count, st =>
    match ingest_row env st job_task_vo row with
    | (st2, Except.error e) => (st2, Except.error e)
    | (st2, Except.ok _) => ingest_rows env job_task_vo rest (count + 1) st2

/-- The outer batch loop: each batch contributes the rows of its results
key, defaulting to the empty list when the key is absent. -/
def ingest_batches (env : Env) (job_task_vo : JobTask) :
    List Batch → Nat → State → State × Except String Nat
  | [], count, st => (st, Except.ok count)
  | b :: bs, count, st =>
    match ingest_rows env job_task_vo (b.results.getD []) count st with
    | (st2, Except.error e) => (st2, Except.error e)
    | (st2, Except.ok count2) => ingest_batches env job_task_vo bs count2 st2

/-- The body of the try block of get_cost_data: resolve the data source,
the plugin endpoint and the secret payload, open the plugin connection,
then stream the batches into the cost record writer.  Any failing step
yields the exception's message; the state keeps whatever was persisted
before the failure. -/
def run_task_body (env : Env) (st : State) (job_task_vo : JobTask)
    (domain_id : String) (task_options : List (String × String)) :
    State × Except String Nat :=
  match DataSourceManager.get_data_source st job_task_vo.data_source_id domain_id with
  | Except.error e => (st, Except.error e)
  | Except.ok data_source_vo =>
    match env.resolveEndpoint data_source_vo.plugin_info domain_id with
    | Except.error e => (st, Except.error e)
    | Except.ok ep =>
      match _get_secret_data env data_source_vo.plugin_info.secret_id domain_id with
      | Except.error e => (st, Except.error e)
      | Except.ok secret_data =>
        match env.init_plugin ep.1 with
        | Except.error e => (st, Except.error e)
        | Except.ok _ =>
          match env.fetch data_source_vo.plugin_info.options secret_data
              data_source_vo.plugin_info.schema task_options with
          | (batches, stream_err) =>
            match ingest_batches env job_task_vo batches 0
                (addTrace st
                  (Event.fetchStart data_source_vo.plugin_info.options secret_data
                    data_source_vo.plugin_info.schema)) with
            | (st2, Except.error e) => (st2, Except.error e)
            | (st2, Except.ok count) =>
              match stream_err with
              | some e => (st2, Except.error e)
              | none => (st2, Except.ok count)

/-- _rollback_cost_data from job_service.py: filter the costs by
(data_source_id, domain_id, job_id) and delete them. -/
def _rollback_cost_data (st : State) (job_vo : Job) : State :=
  addTrace
    { st with costs :=
        st.costs.filter (fun c =>
          !(c.data_source_id == job_vo.data_source_id && c.domain_id == job_vo.domain_id
            && c.job_id == job_vo.job_id)) }
    (Event.rollback job_vo.job_id)

/-- _update_last_sync_time from job_service.py: re-read the data source
(NotFound propagates) and set last_synchronized_at to the job's
created_at. -/
def _update_last_sync_time (st : State) (job_vo : Job) : Except String State :=
  match DataSourceManager.get_data_source st job_vo.data_source_id job_vo.domain_id with
  | Except.error e => Except.error e
  | Except.ok _ =>
    Except.ok
      (DataSourceManager.update_last_sync st job_vo.data_source_id job_vo.domain_id
        job_vo.created_at)

/-- The structured filter built by _delete_changed_cost_data for a
high-water mark t. -/
def changedCostQuery (job_vo : Job) (t : Nat) : List Condition :=
  [{ k := "billed_at", v := FilterValue.ts t, o := FilterOp.gte },
   { k := "data_source_id", v := FilterValue.str job_vo.data_source_id, o := FilterOp.eq },
   { k := "domain_id", v := FilterValue.str job_vo.domain_id, o := FilterOp.eq },
   { k := "job_id", v := FilterValue.str job_vo.job_id, o := FilterOp.notOp }]

/-- _delete_changed_cost_data from job_service.py: when the job carries a
last_changed_at high-water mark, list the cost records matching the
structured filter and delete them; without a mark nothing happens. -/
def _delete_changed_cost_data (st : State) (job_vo : Job) : State :=
  match job_vo.last_changed_at with
  | none => st
  | some t =>
    addTrace
      { st with costs :=
          st.costs.filter (fun c => !((changedCostQuery job_vo t).all (matchCond c))) }
      (Event.reconcile job_vo.job_id)

/-- _close_job from job_service.py: read the job (NotFound propagates);
when no tasks remain, an IN_PROGRESS job is finalized (success transition,
last-sync update, change reconciliation, in that order) and an ERROR job
is rolled back; any other combination does nothing. -/
def _close_job (st : State) (job_id domain_id : String) : Except String State :=
  match JobManager.get_job st job_id domain_id with
  | Except.error e => Except.error e
  | Except.ok job_vo =>
    if job_vo.remained_tasks == 0 then
      if job_vo.status == JobStatus.IN_PROGRESS then
        match _update_last_sync_time (JobManager.change_success_status st job_vo) job_vo with
        | Except.error e => Except.error e
        | Except.ok st2 => Except.ok (_delete_changed_cost_data st2 job_vo)
      else if job_vo.status == JobStatus.ERROR then
        Except.ok (_rollback_cost_data st job_vo)
      else Except.ok st
    else Except.ok st

/-- The terminal task transition chosen by get_cost_data after the try
block: SUCCESS with the final count when the body completed, ERROR with
the exception's message otherwise. -/
def task_outcome (env : Env) (p : State × JobTask) (domain_id : String)
    (task_options : List (String × String)) : State :=
  match run_task_body env p.1 p.2 domain_id task_options with
  | (st2, Except.ok count) => JobTaskManager.change_success_status st2 p.2 count
  | (st2, Except.error e) => JobTaskManager.change_error_status st2 p.2 e

/-- get_cost_data from job_service.py, the entry point: load the task
(NotFound propagates), mark it in progress, run the try block, record the
terminal transition, and always invoke the job-closing step for the
parent job. -/
def get_cost_data (env : Env) (st : State) (task_options : List (String × String))
    (job_task_id domain_id : String) : Except String State :=
  match JobTaskManager.get_job_task st job_task_id domain_id with
  | Except.error e => Except.error e
  | Except.ok job_task_vo =>
    _close_job
      (task_outcome env (JobTaskManager.change_in_progress_status st job_task_vo)
        domain_id task_options)
      job_task_vo.job_id domain_id

/-! ## Concrete fixtures used to evaluate the development on closed inputs. -/

def task1 : JobTask :=
  { job_task_id := "task-1", job_id := "job-1", data_source_id := "ds-1",
    domain_id := "dom-1", status := TaskStatus.PENDING, ingested_count := 0,
    error_message := "" }

def job1 : Job :=
  { job_id := "job-1", data_source_id := "ds-1", domain_id := "dom-1",
    status := JobStatus.IN_PROGRESS, remained_tasks := 1, created_at := 100,
    last_changed_at := some 50 }

def pinfoNoSecret : PluginInfo :=
  { secret_id := none, options := [("raw_filter", "all")], schema := none }

def ds1 : DataSource :=
  { data_source_id := "ds-1", domain_id := "dom-1", plugin_info := pinfoNoSecret,
    last_synchronized_at := none }

def baseState : State :=
  { jobs := [job1], job_tasks := [task1], data_sources := [ds1], costs := [], trace := [] }

def rowUSD : RawCost :=
  { cost := some 10, currency := some "USD", billed_at := some "2023-01-01T00:00:00Z" }

def rowEUR : RawCost :=
  { cost := some 20, currency := some "EUR", billed_at := some "2023-01-02T00:00:00Z" }

def batchA : Batch := { results := some [rowUSD] }

def batchB : Batch := { results := some [rowEUR] }

def twoBatches : List Batch := [batchA, batchB]

def sampleParse : String → Option Nat := fun s =>
  if s = "2023-01-01T00:00:00Z" then some 1000
  else if s = "2023-01-02T00:00:00Z" then some 2000
  else none

def envOk : Env :=
  { resolveEndpoint := fun _ _ => Except.ok ("grpc-endpoint", none)
    init_plugin := fun _ => Except.ok Unit.unit
    getSecret := fun sid _ => Except.ok [("token", sid)]
    fetch := fun _ _ _ _ => (twoBatches, none)
    parseIso := sampleParse
    costError := fun _ => none }

def envFail : Env :=
  { envOk with resolveEndpoint := fun _ _ => Except.error "plugin endpoint unreachable" }

def badRow : RawCost :=
  { cost := some 5, currency := none, billed_at := some "not-a-date" }

def badBatch : Batch := { results := some [badRow] }

def envBad : Env := { envOk with fetch := fun _ _ _ _ => ([badBatch], none) }

def jobClosing : Job := { job1 with remained_tasks := 0 }

def closingState : State := { baseState with jobs := [jobClosing] }

def jobErr : Job := { job1 with remained_tasks := 0, status := JobStatus.ERROR }

def cost1 : CostRecord :=
  { job_id := "job-1", data_source_id := "ds-1", domain_id := "dom-1",
    original_currency := "USD", original_cost := 10, billed_at := 1000 }

def costOther : CostRecord :=
  { job_id := "job-0", data_source_id := "ds-1", domain_id := "dom-1",
    original_currency := "USD", original_cost := 7, billed_at := 49 }

def errState : State := { baseState with jobs := [jobErr], costs := [cost1, costOther] }

/-- The state of an ERROR job whose close step has already run: its own
cost records are gone, the job is still ERROR with no remaining tasks. -/
def closedErrState : State := { baseState with jobs := [jobErr], costs := [costOther] }

/-- A record of a previous job exactly at the high-water mark. -/
def recBoundary : CostRecord :=
  { job_id := "job-0", data_source_id := "ds-1", domain_id := "dom-1",
    original_currency := "USD", original_cost := 3, billed_at := 50 }

/-- A record of a previous job one unit before the high-water mark. -/
def recBefore : CostRecord :=
  { job_id := "job-0", data_source_id := "ds-1", domain_id := "dom-1",
    original_currency := "USD", original_cost := 4, billed_at := 49 }

def hwState : State := { baseState with jobs := [jobClosing], costs := [recBoundary, recBefore] }

def jobCanceled : Job := { job1 with remained_tasks := 0, status := JobStatus.CANCELED }

def canceledState : State := { baseState with jobs := [jobCanceled] }

/-! ## Helper lemmas. -/

theorem find?_map_key {α : Type} (p : α → Bool) (f : α → α)
    (hf : ∀ a, p a = true → p (f a) = true) :
    ∀ l : List α, (l.map (fun a => if p a then f a else a)).find? p = (l.find? p).map f := by
  intro l
  induction l with
  | nil => rfl
  | cons x xs ih =>
    cases hx : p x with
    | true =>
      simp only [List.map_cons, hx, if_true]
      rw [List.find?_cons_of_pos _ (hf x hx), List.find?_cons_of_pos _ hx]
      rfl
    | false =>
      simp only [List.map_cons, hx, if_false]
      rw [List.find?_cons_of_neg _ (by simp [hx]), List.find?_cons_of_neg _ (by simp [hx]), ih]

theorem findJob_ext {st1 st2 : State} (h : st1.jobs = st2.jobs) (jid did : String) :
    findJob st1 jid did = findJob st2 jid did := by
  unfold findJob
  rw [h]

theorem findTask_ext {st1 st2 : State} (h : st1.job_tasks = st2.job_tasks) (k did : String) :
    findTask st1 k did = findTask st2 k did := by
  unfold findTask
  rw [h]

theorem findDS_ext {st1 st2 : State} (h : st1.data_sources = st2.data_sources) (k did : String) :
    findDS st1 k did = findDS st2 k did := by
  unfold findDS
  rw [h]

theorem findJob_mapJob (st : State) (k d : String) (f : Job → Job)
    (hf : ∀ j, (f j).job_id = j.job_id) (hf2 : ∀ j, (f j).domain_id = j.domain_id) :
    findJob (mapJob st k d f) k d = (findJob st k d).map f := by
  unfold findJob mapJob
  exact find?_map_key _ f (by intro j hj; simpa [hf j, hf2 j] using hj) st.jobs

theorem findTask_mapTask (st : State) (k d : String) (f : JobTask → JobTask)
    (hf : ∀ t, (f t).job_task_id = t.job_task_id) (hf2 : ∀ t, (f t).domain_id = t.domain_id) :
    findTask (mapTask st k d f) k d = (findTask st k d).map f := by
  unfold findTask mapTask
  exact find?_map_key _ f (by intro t ht; simpa [hf t, hf2 t] using ht) st.job_tasks

theorem findDS_mapDS (st : State) (k d : String) (f : DataSource → DataSource)
    (hf : ∀ x, (f x).data_source_id = x.data_source_id)
    (hf2 : ∀ x, (f x).domain_id = x.domain_id) :
    findDS (mapDS st k d f) k d = (findDS st k d).map f := by
  unfold findDS mapDS
  exact find?_map_key _ f (by intro x hx; simpa [hf x, hf2 x] using hx) st.data_sources

theorem get_job_task_ok {st : State} {k d : String} {t : JobTask}
    (h : JobTaskManager.get_job_task st k d = Except.ok t) :
    findTask st k d = some t ∧ t.job_task_id = k ∧ t.domain_id = d := by
  unfold JobTaskManager.get_job_task at h
  cases hf : findTask st k d with
  | none => rw [hf] at h; exact absurd h (by simp)
  | some t0 =>
    rw [hf] at h
    have ht : t0 = t := by injection h
    subst ht
    have hp := List.find?_some hf
    simp only [Bool.and_eq_true, beq_iff_eq] at hp
    exact ⟨hf ▸ rfl, hp.1, hp.2⟩

theorem get_job_ok {st : State} {k d : String} {j : Job}
    (h : JobManager.get_job st k d = Except.ok j) :
    findJob st k d = some j ∧ j.job_id = k ∧ j.domain_id = d := by
  unfold JobManager.get_job at h
  cases hf : findJob st k d with
  | none => rw [hf] at h; exact absurd h (by simp)
  | some j0 =>
    rw [hf] at h
    have hj : j0 = j := by injection h
    subst hj
    have hp := List.find?_some hf
    simp only [Bool.and_eq_true, beq_iff_eq] at hp
    exact ⟨hf ▸ rfl, hp.1, hp.2⟩

theorem ingest_row_frame (env : Env) (st : State) (t : JobTask) (row : RawCost) :
    (ingest_row env st t row).1.jobs = st.jobs ∧
    (ingest_row env st t row).1.job_tasks = st.job_tasks ∧
    (ingest_row env st t row).1.data_sources = st.data_sources := by
  unfold ingest_row
  split
  · exact ⟨rfl, rfl, rfl⟩
  · split
    · exact ⟨rfl, rfl, rfl⟩
    · simp [CostManager.create_cost, addTrace]

theorem ingest_row_trace (env : Env) (st : State) (t : JobTask) (row : RawCost) :
    ∃ tl, (ingest_row env st t row).1.trace = st.trace ++ tl := by
  unfold ingest_row
  split
  · exact ⟨[], by simp⟩
  · split
    · exact ⟨[], by simp⟩
    · rename_i x1 c h1 x2 h2
      exact ⟨[Event.createCost c], by simp [CostManager.create_cost, addTrace]⟩

theorem ingest_row_costs_ok (env : Env) (st : State) (t : JobTask) (row : RawCost)
    {st2 : State} (h : ingest_row env st t row = (st2, Except.ok Unit.unit)) :
    st2.costs.length = st.costs.length + 1 := by
  unfold ingest_row at h
  split at h
  · exact absurd h (by simp)
  · split at h
    · exact absurd h (by simp)
    · have h1 : CostManager.create_cost st _ = st2 := congrArg Prod.fst h
      rw [← h1]
      simp [CostManager.create_cost, addTrace]

theorem ingest_rows_frame (env : Env) (t : JobTask) :
    ∀ (rows : List RawCost) (count : Nat) (st : State),
      (ingest_rows env t rows count st).1.jobs = st.jobs ∧
      (ingest_rows env t rows count st).1.job_tasks = st.job_tasks ∧
      (ingest_rows env t rows count st).1.data_sources = st.data_sources := by
  intro rows
  induction rows with
  | nil => intro count st; exact ⟨rfl, rfl, rfl⟩
  | cons r rest ih =>
    intro count st
    have hf := ingest_row_frame env st t r
    unfold ingest_rows
    cases hr : ingest_row env st t r with
    | mk st2 res =>
      rw [hr] at hf
      cases res with
      | error e => exact hf
      | ok u =>
        have h2 := ih (count + 1) st2
        exact ⟨h2.1.trans hf.1, h2.2.1.trans hf.2.1, h2.2.2.trans hf.2.2⟩

theorem ingest_rows_trace (env : Env) (t : JobTask) :
    ∀ (rows : List RawCost) (count : Nat) (st : State),
      ∃ tl, (ingest_rows env t rows count st).1.trace = st.trace ++ tl := by
  intro rows
  induction rows with
  | nil => intro count st; exact ⟨[], by simp [ingest_rows]⟩
  | cons r rest ih =>
    intro count st
    obtain ⟨tl0, htl0⟩ := ingest_row_trace env st t r
    unfold ingest_rows
    cases hr : ingest_row env st t r with
    | mk st2 res =>
      rw [hr] at htl0
      cases res with
      | error e => exact ⟨tl0, htl0⟩
      | ok u =>
        obtain ⟨tl1, htl1⟩ := ih (count + 1) st2
        exact ⟨tl0 ++ tl1, by rw [htl1, htl0, List.append_assoc]⟩

theorem ingest_rows_ok (env : Env) (t : JobTask) :
    ∀ (rows : List RawCost) (count : Nat) (st st2 : State) (n : Nat),
      ingest_rows env t rows count st = (st2, Except.ok n) →
      n = count + rows.length ∧ st2.costs.length = st.costs.length + rows.length := by
  intro rows
  induction rows with
  | nil =>
    intro count st st2 n h
    unfold ingest_rows at h
    have h1 : st = st2 := congrArg Prod.fst h
    have h2 : (Except.ok count : Except String Nat) = Except.ok n := congrArg Prod.snd h
    have h3 : count = n := by injection h2
    subst h1; subst h3
    simp
  | cons r rest ih =>
    intro count st st2 n h
    unfold ingest_rows at h
    cases hr : ingest_row env st t r with
    | mk stm res =>
      rw [hr] at h
      cases res with
      | error e => exact absurd h (by simp)
      | ok u =>
        cases u
        have hone : stm.costs.length = st.costs.length + 1 := ingest_row_costs_ok env st t r hr
        obtain ⟨ha, hb⟩ := ih (count + 1) stm st2 n h
        simp only [List.length_cons]
        exact ⟨by omega, by omega⟩

theorem ingest_rows_err (env : Env) (t : JobTask) (row : RawCost)
    (hbad : ∃ e, _create_cost_data env row t = Except.error e) :
    ∀ (rows : List RawCost) (count : Nat) (st : State), row ∈ rows →
      ∃ e2, (ingest_rows env t rows count st).2 = Except.error e2 := by
  intro rows
  induction rows with
  | nil => intro count st hmem; exact absurd hmem (by simp)
  | cons r rest ih =>
    intro count st hmem
    unfold ingest_rows
    cases hr : ingest_row env st t r with
    | mk stm res =>
      cases res with
      | error e => exact ⟨e, rfl⟩
      | ok u =>
        have hne : r ≠ row := by
          intro hrr
          subst hrr
          obtain ⟨e0, he0⟩ := hbad
          unfold ingest_row at hr
          rw [he0] at hr
          exact absurd (congrArg Prod.snd hr) (by simp)
        have hmem2 : row ∈ rest := by
          cases List.mem_cons.mp hmem with
          | inl hh => exact absurd hh.symm hne
          | inr hh => exact hh
        exact ih (count + 1) stm hmem2

theorem ingest_batches_frame (env : Env) (t : JobTask) :
    ∀ (bs : List Batch) (count : Nat) (st : State),
      (ingest_batches env t bs count st).1.jobs = st.jobs ∧
      (ingest_batches env t bs count st).1.job_tasks = st.job_tasks ∧
      (ingest_batches env t bs count st).1.data_sources = st.data_sources := by
  intro bs
  induction bs with
  | nil => intro count st; exact ⟨rfl, rfl, rfl⟩
  | cons b rest ih =>
    intro count st
    have hf := ingest_rows_frame env t (b.results.getD []) count st
    unfold ingest_batches
    cases hr : ingest_rows env t (b.results.getD []) count st with
    | mk st2 res =>
      rw [hr] at hf
      cases res with
      | error e => exact hf
      | ok count2 =>
        have h2 := ih count2 st2
        exact ⟨h2.1.trans hf.1, h2.2.1.trans hf.2.1, h2.2.2.trans hf.2.2⟩

theorem ingest_batches_trace (env : Env) (t : JobTask) :
    ∀ (bs : List Batch) (count : Nat) (st : State),
      ∃ tl, (ingest_batches env t bs count st).1.trace = st.trace ++ tl := by
  intro bs
  induction bs with
  | nil => intro count st; exact ⟨[], by simp [ingest_batches]⟩
  | cons b rest ih =>
    intro count st
    obtain ⟨tl0, htl0⟩ := ingest_rows_trace env t (b.results.getD []) count st
    unfold ingest_batches
    cases hr : ingest_rows env t (b.results.getD []) count st with
    | mk st2 res =>
      rw [hr] at htl0
      cases res with
      | error e => exact ⟨tl0, htl0⟩
      | ok count2 =>
        obtain ⟨tl1, htl1⟩ := ih count2 st2
        exact ⟨tl0 ++ tl1, by rw [htl1, htl0, List.append_assoc]⟩

theorem ingest_batches_ok (env : Env) (t : JobTask) :
    ∀ (bs : List Batch) (count : Nat) (st st2 : State) (n : Nat),
      ingest_batches env t bs count st = (st2, Except.ok n) →
      n = count + (bs.map (fun b => (b.results.getD []).length)).sum ∧
      st2.costs.length = st.costs.length + (bs.map (fun b => (b.results.getD []).length)).sum := by
  intro bs
  induction bs with
  | nil =>
    intro count st st2 n h
    unfold ingest_batches at h
    have h1 : st = st2 := congrArg Prod.fst h
    have h2 : (Except.ok count : Except String Nat) = Except.ok n := congrArg Prod.snd h
    have h3 : count = n := by injection h2
    subst h1; subst h3
    simp
  | cons b rest ih =>
    intro count st st2 n h
    unfold ingest_batches at h
    cases hr : ingest_rows env t (b.results.getD []) count st with
    | mk stm res =>
      rw [hr] at h
      cases res with
      | error e => exact absurd h (by simp)
      | ok count2 =>
        have hrows := ingest_rows_ok env t (b.results.getD []) count st stm count2 hr
        have := ih count2 stm st2 n h
        constructor
        · rw [this.1, hrows.1]
          simp
          omega
        · rw [this.2, hrows.2]
          simp
          omega

theorem ingest_batches_err (env : Env) (t : JobTask) (b : Batch) (row : RawCost)
    (hrow : row ∈ b.results.getD [])
    (hbad : ∃ e, _create_cost_data env row t = Except.error e) :
    ∀ (bs : List Batch) (count : Nat) (st : State), b ∈ bs →
      ∃ e2, (ingest_batches env t bs count st).2 = Except.error e2 := by
  intro bs
  induction bs with
  | nil => intro count st hmem; exact absurd hmem (by simp)
  | cons b0 rest ih =>
    intro count st hmem
    unfold ingest_batches
    cases hr : ingest_rows env t (b0.results.getD []) count st with
    | mk stm res =>
      cases res with
      | error e => exact ⟨e, rfl⟩
      | ok count2 =>
        have hne : b0 ≠ b := by
          intro hbb
          subst hbb
          obtain ⟨e2, he2⟩ := ingest_rows_err env t row hbad (b0.results.getD []) count st hrow
          rw [hr] at he2
          exact absurd he2 (by simp)
        have hmem2 : b ∈ rest := by
          cases List.mem_cons.mp hmem with
          | inl hh => exact absurd hh.symm hne
          | inr hh => exact hh
        exact ih count2 stm hmem2

theorem update_last_sync_time_ok {st : State} {job : Job} {st2 : State}
    (h : _update_last_sync_time st job = Except.ok st2) :
    st2.job_tasks = st.job_tasks ∧ st2.jobs = st.jobs ∧ st2.costs = st.costs ∧
    st2.data_sources = (mapDS st job.data_source_id job.domain_id
      (fun d => { d with last_synchronized_at := some job.created_at })).data_sources ∧
    st2.trace = st.trace ++ [Event.updateLastSync job.data_source_id job.created_at] := by
  unfold _update_last_sync_time at h
  split at h
  · exact absurd h (by simp)
  · have h2 : DataSourceManager.update_last_sync st job.data_source_id job.domain_id
        job.created_at = st2 := by injection h
    rw [← h2]
    refine ⟨?_, ?_, ?_, ?_, ?_⟩ <;>
      simp [DataSourceManager.update_last_sync, mapDS, addTrace]

/-- Unfolding of the close step once the job has been read. -/
theorem close_job_cases (st : State) (jid did : String) (job : Job)
    (hj : findJob st jid did = some job) :
    _close_job st jid did =
      (if job.remained_tasks == 0 then
        if job.status == JobStatus.IN_PROGRESS then
          match _update_last_sync_time (JobManager.change_success_status st job) job with
          | Except.error e => Except.error e
          | Except.ok st2 => Except.ok (_delete_changed_cost_data st2 job)
        else if job.status == JobStatus.ERROR then Except.ok (_rollback_cost_data st job)
        else Except.ok st
      else Except.ok st) := by
  unfold _close_job JobManager.get_job
  rw [hj]

theorem delete_changed_shape (st : State) (job : Job) :
    (_delete_changed_cost_data st job).jobs = st.jobs ∧
    (_delete_changed_cost_data st job).job_tasks = st.job_tasks ∧
    (_delete_changed_cost_data st job).data_sources = st.data_sources := by
  unfold _delete_changed_cost_data
  cases job.last_changed_at with
  | none => exact ⟨rfl, rfl, rfl⟩
  | some t => exact ⟨rfl, rfl, rfl⟩

theorem rollback_shape (st : State) (job : Job) :
    (_rollback_cost_data st job).jobs = st.jobs ∧
    (_rollback_cost_data st job).job_tasks = st.job_tasks ∧
    (_rollback_cost_data st job).data_sources = st.data_sources ∧
    (_rollback_cost_data st job).trace = st.trace ++ [Event.rollback job.job_id] ∧
    (_rollback_cost_data st job).costs =
      st.costs.filter (fun c =>
        !(c.data_source_id == job.data_source_id && c.domain_id == job.domain_id
          && c.job_id == job.job_id)) := by
  unfold _rollback_cost_data addTrace
  exact ⟨rfl, rfl, rfl, rfl, rfl⟩

theorem close_preserves_job_tasks {st : State} {jid did : String} {st2 : State}
    (h : _close_job st jid did = Except.ok st2) : st2.job_tasks = st.job_tasks := by
  unfold _close_job at h
  split at h
  · exact absurd h (by simp)
  · rename_i job hj
    split at h
    · split at h
      · split at h
        · exact absurd h (by simp)
        · rename_i stm hstm
          have h2 : _delete_changed_cost_data stm job = st2 := by injection h
          rw [← h2]
          exact ((delete_changed_shape stm job).2.1).trans (update_last_sync_time_ok hstm).1
      · split at h
        · have h2 : _rollback_cost_data st job = st2 := by injection h
          rw [← h2]
          exact (rollback_shape st job).2.1
        · have h2 : st = st2 := by injection h
          rw [← h2]
    · have h2 : st = st2 := by injection h
      rw [← h2]

theorem changedCostQuery_all (job : Job) (t : Nat) (c : CostRecord) :
    ((changedCostQuery job t).all (matchCond c) = true) ↔
      (t ≤ c.billed_at ∧ c.data_source_id = job.data_source_id ∧
        c.domain_id = job.domain_id ∧ c.job_id ≠ job.job_id) := by
  have h1 : costField c "billed_at" = some (FilterValue.ts c.billed_at) := rfl
  have h2 : costField c "data_source_id" = some (FilterValue.str c.data_source_id) := rfl
  have h3 : costField c "domain_id" = some (FilterValue.str c.domain_id) := rfl
  have h4 : costField c "job_id" = some (FilterValue.str c.job_id) := rfl
  simp [changedCostQuery, matchCond, h1, h2, h3, h4, evalOp, and_assoc]

/-- C2: when the close step runs for a job with no remaining tasks and
status IN_PROGRESS, it transitions the job to SUCCESS, sets the owning
data source's last_synchronized_at to the job's created_at timestamp, and
then runs change reconciliation, in that order (the reconciliation
deletion itself executes exactly when the job carries a last_changed_at
high-water mark). -/
theorem close_job_finalizes_in_progress (st : State) (job : Job) (ds : DataSource)
    (hJob : findJob st job.job_id job.domain_id = some job)
    (h0 : job.remained_tasks = 0)
    (hip : job.status = JobStatus.IN_PROGRESS)
    (hds : findDS st job.data_source_id job.domain_id = some ds) :
    ∃ st', _close_job st job.job_id job.domain_id = Except.ok st' ∧
      findJob st' job.job_id job.domain_id = some { job with status := JobStatus.SUCCESS } ∧
      findDS st' job.data_source_id job.domain_id =
        some { ds with last_synchronized_at := some job.created_at } ∧
      st'.trace = st.trace ++
        [Event.jobSuccess job.job_id, Event.updateLastSync job.data_source_id job.created_at]
        ++ (match job.last_changed_at with
            | some _ => [Event.reconcile job.job_id]
            | none => []) := by
  have hcond1 : (job.remained_tasks == 0) = true := by rw [h0]; rfl
  have hcond2 : (job.status == JobStatus.IN_PROGRESS) = true := by rw [hip]; rfl
  have hds1 : findDS (JobManager.change_success_status st job) job.data_source_id
      job.domain_id = some ds := by
    have hproj : (JobManager.change_success_status st job).data_sources = st.data_sources := by
      simp [JobManager.change_success_status, mapJob, addTrace]
    rw [findDS_ext hproj]
    exact hds
  have hul : _update_last_sync_time (JobManager.change_success_status st job) job =
      Except.ok (DataSourceManager.update_last_sync (JobManager.change_success_status st job)
        job.data_source_id job.domain_id job.created_at) := by
    unfold _update_last_sync_time DataSourceManager.get_data_source
    rw [hds1]
  rw [close_job_cases st job.job_id job.domain_id job hJob, if_pos hcond1, if_pos hcond2, hul]
  refine ⟨_, rfl, ?_, ?_, ?_⟩
  · have h1 : (_delete_changed_cost_data
        (DataSourceManager.update_last_sync (JobManager.change_success_status st job)
          job.data_source_id job.domain_id job.created_at) job).jobs =
        (mapJob st job.job_id job.domain_id
          (fun j => { j with status := JobStatus.SUCCESS })).jobs := by
      rw [(delete_changed_shape _ job).1]
      simp [DataSourceManager.update_last_sync, mapDS, addTrace,
        JobManager.change_success_status, mapJob]
    rw [findJob_ext h1,
      findJob_mapJob st job.job_id job.domain_id
        (fun j => { j with status := JobStatus.SUCCESS }) (fun j => rfl) (fun j => rfl), hJob]
    rfl
  · have h2 : (_delete_changed_cost_data
        (DataSourceManager.update_last_sync (JobManager.change_success_status st job)
          job.data_source_id job.domain_id job.created_at) job).data_sources =
        (mapDS st job.data_source_id job.domain_id
          (fun d => { d with last_synchronized_at := some job.created_at })).data_sources := by
      rw [(delete_changed_shape _ job).2.2]
      simp [DataSourceManager.update_last_sync, mapDS, addTrace,
        JobManager.change_success_status, mapJob]
    rw [findDS_ext h2,
      findDS_mapDS st job.data_source_id job.domain_id
        (fun d => { d with last_synchronized_at := some job.created_at })
        (fun d => rfl) (fun d => rfl), hds]
    rfl
  · cases hlc : job.last_changed_at with
    | none =>
      simp [_delete_changed_cost_data, hlc, DataSourceManager.update_last_sync, addTrace,
        mapDS, JobManager.change_success_status, mapJob]
    | some t =>
      simp [_delete_changed_cost_data, hlc, DataSourceManager.update_last_sync, addTrace,
        mapDS, JobManager.change_success_status, mapJob]

/-- C3: when the close step runs for a job in status ERROR with no
remaining tasks, the rollback deletes every cost record matching the
job's (data_source_id, domain_id, job_id); provided every persisted record
carrying this job's id also carries the job's data source and domain (as
the writer guarantees), no record with this job_id remains afterwards. -/
theorem close_job_error_rollback_complete (st : State) (job : Job)
    (hJob : findJob st job.job_id job.domain_id = some job)
    (h0 : job.remained_tasks = 0)
    (herr : job.status = JobStatus.ERROR)
    (hprov : ∀ c ∈ st.costs, c.job_id = job.job_id →
      c.data_source_id = job.data_source_id ∧ c.domain_id = job.domain_id) :
    ∃ st', _close_job st job.job_id job.domain_id = Except.ok st' ∧
      ∀ c ∈ st'.costs, c.job_id ≠ job.job_id := by
  have hcond1 : (job.remained_tasks == 0) = true := by rw [h0]; rfl
  have hcond2 : (job.status == JobStatus.IN_PROGRESS) = false := by rw [herr]; rfl
  have hcond3 : (job.status == JobStatus.ERROR) = true := by rw [herr]; rfl
  rw [close_job_cases st job.job_id job.domain_id job hJob, if_pos hcond1,
    if_neg (by simp [hcond2]), if_pos hcond3]
  refine ⟨_, rfl, ?_⟩
  intro c hc hcjob
  rw [(rollback_shape st job).2.2.2.2] at hc
  rw [List.mem_filter] at hc
  obtain ⟨hcmem, hfilt⟩ := hc
  obtain ⟨hds, hdom⟩ := hprov c hcmem hcjob
  simp [hds, hdom, hcjob] at hfilt

/-- C4: change reconciliation with a high-water mark t deletes exactly the
cost records with billed_at at or after t, the job's data source and
domain, and a different job_id (boundary inclusive); without a mark it
deletes nothing. -/
theorem delete_changed_cost_data_filter (st : State) (job : Job) :
    (∀ t : Nat, job.last_changed_at = some t →
      ∀ c : CostRecord,
        (c ∈ (_delete_changed_cost_data st job).costs ↔
          c ∈ st.costs ∧
            ¬(t ≤ c.billed_at ∧ c.data_source_id = job.data_source_id ∧
              c.domain_id = job.domain_id ∧ c.job_id ≠ job.job_id))) ∧
    (job.last_changed_at = none → (_delete_changed_cost_data st job).costs = st.costs) := by
  constructor
  · intro t hlc c
    unfold _delete_changed_cost_data
    rw [hlc]
    simp only [addTrace]
    rw [List.mem_filter]
    constructor
    · rintro ⟨hm, hb⟩
      refine ⟨hm, ?_⟩
      intro hcontra
      rw [← changedCostQuery_all job t c] at hcontra
      simp [hcontra] at hb
    · rintro ⟨hm, hn⟩
      refine ⟨hm, ?_⟩
      cases hall : (changedCostQuery job t).all (matchCond c) with
      | false => rfl
      | true => exact absurd ((changedCostQuery_all job t c).mp hall) hn
  · intro hlc
    unfold _delete_changed_cost_data
    rw [hlc]

/-- C5 counterexample: the claim states that invoking the close step on a
job whose status is already terminal, ERROR included, performs no rollback
and is a no-op; but on a job in status ERROR with no remaining tasks whose
rollback has already run, the close step executes the rollback deletion
again, so the resulting state differs from the input state. -/
theorem close_job_error_second_close_not_noop :
    _close_job closedErrState "job-1" "dom-1" =
      Except.ok { closedErrState with trace := [Event.rollback "job-1"] } ∧
    { closedErrState with trace := [Event.rollback "job-1"] } ≠ closedErrState := by
  constructor
  · rfl
  · decide

/-- C5 amended: for a job with no remaining tasks in any status other than
IN_PROGRESS and ERROR (e.g. SUCCESS or CANCELED), the close step is a
no-op; for a job in status ERROR it is not a no-op — it re-executes the
rollback deletion — but the re-execution deletes no further records, so
the stored cost set is unchanged by the second invocation. -/
theorem close_job_noop_amended (st : State) (job : Job)
    (hJob : findJob st job.job_id job.domain_id = some job)
    (h0 : job.remained_tasks = 0) :
    (job.status ≠ JobStatus.IN_PROGRESS → job.status ≠ JobStatus.ERROR →
      _close_job st job.job_id job.domain_id = Except.ok st) ∧
    (job.status = JobStatus.ERROR →
      ∃ st', _close_job st job.job_id job.domain_id = Except.ok st' ∧
        ∃ st2, _close_job st' job.job_id job.domain_id = Except.ok st2 ∧
          st2.costs = st'.costs) := by
  have hcond1 : (job.remained_tasks == 0) = true := by rw [h0]; rfl
  constructor
  · intro hnip hnerr
    have hcond2 : (job.status == JobStatus.IN_PROGRESS) = false := by
      cases hjs : job.status <;> simp_all
    have hcond3 : (job.status == JobStatus.ERROR) = false := by
      cases hjs : job.status <;> simp_all
    rw [close_job_cases st job.job_id job.domain_id job hJob, if_pos hcond1,
      if_neg (by simp [hcond2]), if_neg (by simp [hcond3])]
  · intro herr
    have hcond2 : (job.status == JobStatus.IN_PROGRESS) = false := by rw [herr]; rfl
    have hcond3 : (job.status == JobStatus.ERROR) = true := by rw [herr]; rfl
    have hJob2 : findJob (_rollback_cost_data st job) job.job_id job.domain_id = some job := by
      rw [findJob_ext (rollback_shape st job).1]
      exact hJob
    refine ⟨_rollback_cost_data st job, ?_,
      _rollback_cost_data (_rollback_cost_data st job) job, ?_, ?_⟩
    · rw [close_job_cases st job.job_id job.domain_id job hJob, if_pos hcond1,
        if_neg (by simp [hcond2]), if_pos hcond3]
    · rw [close_job_cases _ job.job_id job.domain_id job hJob2, if_pos hcond1,
        if_neg (by simp [hcond2]), if_pos hcond3]
    · rw [(rollback_shape _ job).2.2.2.2, (rollback_shape st job).2.2.2.2]
      exact List.filter_eq_self.mpr (fun a ha => (List.mem_filter.mp ha).2)

/-- C2 witness at a concrete closed input. -/
theorem close_job_finalizes_in_progress_witness :
    ∃ st', _close_job closingState "job-1" "dom-1" = Except.ok st' ∧
      findJob st' "job-1" "dom-1" = some { jobClosing with status := JobStatus.SUCCESS } ∧
      findDS st' "ds-1" "dom-1" = some { ds1 with last_synchronized_at := some 100 } ∧
      st'.trace = [Event.jobSuccess "job-1", Event.updateLastSync "ds-1" 100,
        Event.reconcile "job-1"] :=
  close_job_finalizes_in_progress closingState jobClosing ds1 rfl rfl rfl rfl

/-- C3 witness at a concrete closed input: one record of the failed job
and one of another job were persisted; after the close none of the failed
job's records remain. -/
theorem close_job_error_rollback_complete_witness :
    ∃ st', _close_job errState "job-1" "dom-1" = Except.ok st' ∧
      ∀ c ∈ st'.costs, c.job_id ≠ "job-1" :=
  close_job_error_rollback_complete errState jobErr rfl rfl rfl (by decide)

/-- C4 witness at a concrete closed input: with mark 50, the prior job's
record billed exactly at 50 is deleted and the one billed at 49 is kept. -/
theorem delete_changed_cost_data_filter_witness :
    recBefore ∈ (_delete_changed_cost_data hwState jobClosing).costs ∧
    recBoundary ∉ (_delete_changed_cost_data hwState jobClosing).costs := by
  have h := (delete_changed_cost_data_filter hwState jobClosing).1 50 rfl
  constructor
  · exact (h recBefore).mpr ⟨by decide, by decide⟩
  · intro hmem
    exact ((h recBoundary).mp hmem).2 (by decide)

/-- C5 amended witness at concrete closed inputs: a CANCELED job with no
remaining tasks closes as a no-op, and a second close of an ERROR job
leaves the stored cost records unchanged. -/
theorem close_job_noop_amended_witness :
    _close_job canceledState "job-1" "dom-1" = Except.ok canceledState ∧
    ∃ st', _close_job closedErrState "job-1" "dom-1" = Except.ok st' ∧
      ∃ st2, _close_job st' "job-1" "dom-1" = Except.ok st2 ∧ st2.costs = st'.costs := by
  constructor
  · exact (close_job_noop_amended canceledState jobCanceled rfl rfl).1 (by decide) (by decide)
  · exact (close_job_noop_amended closedErrState jobErr rfl rfl).2 rfl

theorem findTask_mapTask_const (st : State) (k d : String) (t2 : JobTask)
    (hk : t2.job_task_id = k) (hd : t2.domain_id = d) :
    findTask (mapTask st k d (fun _ => t2)) k d = (findTask st k d).map (fun _ => t2) := by
  unfold findTask mapTask
  exact find?_map_key _ _ (by intro a ha; simp [hk, hd]) st.job_tasks

theorem task_outcome_error (env : Env) (p : State × JobTask) (did : String)
    (topts : List (String × String)) (e : String)
    (h : (run_task_body env p.1 p.2 did topts).2 = Except.error e) :
    task_outcome env p did topts =
      JobTaskManager.change_error_status (run_task_body env p.1 p.2 did topts).1 p.2 e := by
  unfold task_outcome
  cases hr : run_task_body env p.1 p.2 did topts with
  | mk st2 res =>
    rw [hr] at h
    cases res with
    | ok n => simp at h
    | error e2 =>
      simp at h
      subst h
      simp

theorem task_outcome_success (env : Env) (p : State × JobTask) (did : String)
    (topts : List (String × String)) (n : Nat)
    (h : (run_task_body env p.1 p.2 did topts).2 = Except.ok n) :
    task_outcome env p did topts =
      JobTaskManager.change_success_status (run_task_body env p.1 p.2 did topts).1 p.2 n := by
  unfold task_outcome
  cases hr : run_task_body env p.1 p.2 did topts with
  | mk st2 res =>
    rw [hr] at h
    cases res with
    | error e2 => simp at h
    | ok n2 =>
      simp at h
      subst h
      simp

theorem ingest_batches_out_frame {env : Env} {t : JobTask} {bs : List Batch} {count : Nat}
    {st0 : State} {out : State × Except String Nat}
    (h : ingest_batches env t bs count st0 = out) :
    out.1.jobs = st0.jobs ∧ out.1.job_tasks = st0.job_tasks ∧
    out.1.data_sources = st0.data_sources := by
  have hf := ingest_batches_frame env t bs count st0
  rw [h] at hf
  exact hf

theorem run_task_body_frame (env : Env) (st : State) (t : JobTask) (did : String)
    (topts : List (String × String)) :
    (run_task_body env st t did topts).1.jobs = st.jobs ∧
    (run_task_body env st t did topts).1.job_tasks = st.job_tasks ∧
    (run_task_body env st t did topts).1.data_sources = st.data_sources := by
  unfold run_task_body
  split
  · exact ⟨rfl, rfl, rfl⟩
  · rename_i dsv hdsv
    split
    · exact ⟨rfl, rfl, rfl⟩
    · rename_i epv hepv
      split
      · exact ⟨rfl, rfl, rfl⟩
      · rename_i sec hsec
        split
        · exact ⟨rfl, rfl, rfl⟩
        · rename_i uu huu
          split
          · rename_i batches stream_err hfetch
            split
            · rename_i st2 e hing
              have hf := ingest_batches_out_frame hing
              exact hf
            · rename_i st2 count hing
              have hf := ingest_batches_out_frame hing
              split
              · exact hf
              · exact hf

theorem change_in_progress_find (st : State) (t : JobTask) (tc : JobTask)
    (htc : findTask st t.job_task_id t.domain_id = some tc) :
    findTask (JobTaskManager.change_in_progress_status st t).1 t.job_task_id t.domain_id =
      some { t with status := TaskStatus.IN_PROGRESS } := by
  have h2 : (JobTaskManager.change_in_progress_status st t).1.job_tasks =
      (mapTask st t.job_task_id t.domain_id
        (fun _ => { t with status := TaskStatus.IN_PROGRESS })).job_tasks := by
    simp [JobTaskManager.change_in_progress_status, addTrace]
  rw [findTask_ext h2, findTask_mapTask_const st t.job_task_id t.domain_id
    { t with status := TaskStatus.IN_PROGRESS } rfl rfl, htc]
  rfl

theorem change_error_status_find_job (st : State) (t : JobTask) (msg : String)
    (job : Job) (hj : findJob st t.job_id t.domain_id = some job) :
    findJob (JobTaskManager.change_error_status st t msg) t.job_id t.domain_id =
      some { job with remained_tasks := job.remained_tasks - 1, status := JobStatus.ERROR } := by
  have h1 : (JobTaskManager.change_error_status st t msg).jobs =
      (mapJob (mapTask st t.job_task_id t.domain_id
          (fun _ => { t with status := TaskStatus.ERROR, error_message := msg }))
        t.job_id t.domain_id
        (fun j => { j with remained_tasks := j.remained_tasks - 1, status := JobStatus.ERROR })).jobs := by
    simp [JobTaskManager.change_error_status, mapJob, mapTask, addTrace]
  rw [findJob_ext h1, findJob_mapJob _ t.job_id t.domain_id
    (fun j => { j with remained_tasks := j.remained_tasks - 1, status := JobStatus.ERROR })
    (fun j => rfl) (fun j => rfl)]
  have hx : (mapTask st t.job_task_id t.domain_id
      (fun _ => { t with status := TaskStatus.ERROR, error_message := msg })).jobs =
      st.jobs := by
    simp [mapTask]
  rw [findJob_ext hx, hj]
  rfl

theorem change_error_status_find_task (st : State) (t : JobTask) (msg : String)
    (tc : JobTask) (htc : findTask st t.job_task_id t.domain_id = some tc) :
    findTask (JobTaskManager.change_error_status st t msg) t.job_task_id t.domain_id =
      some { t with status := TaskStatus.ERROR, error_message := msg } := by
  have h1 : (JobTaskManager.change_error_status st t msg).job_tasks =
      (mapTask st t.job_task_id t.domain_id
        (fun _ => { t with status := TaskStatus.ERROR, error_message := msg })).job_tasks := by
    simp [JobTaskManager.change_error_status, mapJob, mapTask, addTrace]
  rw [findTask_ext h1, findTask_mapTask_const st t.job_task_id t.domain_id
    { t with status := TaskStatus.ERROR, error_message := msg } rfl rfl, htc]
  rfl

theorem change_success_status_find_task (st : State) (t : JobTask) (n : Nat)
    (tc : JobTask) (htc : findTask st t.job_task_id t.domain_id = some tc) :
    findTask (JobTaskManager.change_success_status st t n) t.job_task_id t.domain_id =
      some { t with status := TaskStatus.SUCCESS, ingested_count := n } := by
  have h1 : (JobTaskManager.change_success_status st t n).job_tasks =
      (mapTask st t.job_task_id t.domain_id
        (fun _ => { t with status := TaskStatus.SUCCESS, ingested_count := n })).job_tasks := by
    simp [JobTaskManager.change_success_status, mapJob, mapTask, addTrace]
  rw [findTask_ext h1, findTask_mapTask_const st t.job_task_id t.domain_id
    { t with status := TaskStatus.SUCCESS, ingested_count := n } rfl rfl, htc]
  rfl

/-- C1: for every invocation of the entry point get_cost_data on an
existing task with an existing parent job, the job-closing step is always
invoked for the parent job afterwards, and any exception raised inside the
try block (data-source resolution, endpoint resolution, secret retrieval,
plugin connection, batch iteration, row normalization including billed_at
parse failure) is captured and recorded on the task as status ERROR with
the exception's message; the call returns normally instead of re-raising. -/
theorem get_cost_data_captures_all_failures
    (env : Env) (st : State) (topts : List (String × String))
    (jtid did : String) (task : JobTask) (job : Job)
    (hTask : JobTaskManager.get_job_task st jtid did = Except.ok task)
    (hJob : findJob st task.job_id did = some job) :
    get_cost_data env st topts jtid did =
      _close_job
        (task_outcome env (JobTaskManager.change_in_progress_status st task) did topts)
        task.job_id did ∧
    (∀ e, (run_task_body env (JobTaskManager.change_in_progress_status st task).1
        (JobTaskManager.change_in_progress_status st task).2 did topts).2 = Except.error e →
      ∃ st', get_cost_data env st topts jtid did = Except.ok st' ∧
        findTask st' jtid did =
          some { task with status := TaskStatus.ERROR, error_message := e }) := by
  obtain ⟨hfind, hkey1, hkey2⟩ := get_job_task_ok hTask
  subst hkey1
  subst hkey2
  have hmain : get_cost_data env st topts task.job_task_id task.domain_id =
      _close_job
        (task_outcome env (JobTaskManager.change_in_progress_status st task)
          task.domain_id topts)
        task.job_id task.domain_id := by
    unfold get_cost_data
    rw [hTask]
  refine ⟨hmain, ?_⟩
  intro e hFail
  have hout := task_outcome_error env (JobTaskManager.change_in_progress_status st task)
    task.domain_id topts e hFail
  have hframe := run_task_body_frame env
    (JobTaskManager.change_in_progress_status st task).1
    (JobTaskManager.change_in_progress_status st task).2 task.domain_id topts
  have hj2 : findJob (run_task_body env
      (JobTaskManager.change_in_progress_status st task).1
      (JobTaskManager.change_in_progress_status st task).2 task.domain_id topts).1
      task.job_id task.domain_id = some job := by
    have hproj : (JobTaskManager.change_in_progress_status st task).1.jobs = st.jobs := by
      simp [JobTaskManager.change_in_progress_status, mapTask, addTrace]
    rw [findJob_ext hframe.1, findJob_ext hproj]
    exact hJob
  have htask2 : findTask (run_task_body env
      (JobTaskManager.change_in_progress_status st task).1
      (JobTaskManager.change_in_progress_status st task).2 task.domain_id topts).1
      task.job_task_id task.domain_id =
      some { task with status := TaskStatus.IN_PROGRESS } := by
    rw [findTask_ext hframe.2.1]
    exact change_in_progress_find st task task hfind
  have hj3 : findJob (JobTaskManager.change_error_status (run_task_body env
      (JobTaskManager.change_in_progress_status st task).1
      (JobTaskManager.change_in_progress_status st task).2 task.domain_id topts).1
      (JobTaskManager.change_in_progress_status st task).2 e)
      task.job_id task.domain_id =
      some { job with remained_tasks := job.remained_tasks - 1, status := JobStatus.ERROR } :=
    change_error_status_find_job _ (JobTaskManager.change_in_progress_status st task).2 e job hj2
  have ht3 : findTask (JobTaskManager.change_error_status (run_task_body env
      (JobTaskManager.change_in_progress_status st task).1
      (JobTaskManager.change_in_progress_status st task).2 task.domain_id topts).1
      (JobTaskManager.change_in_progress_status st task).2 e)
      task.job_task_id task.domain_id =
      some { task with status := TaskStatus.ERROR, error_message := e } :=
    change_error_status_find_task _ (JobTaskManager.change_in_progress_status st task).2 e
      { task with status := TaskStatus.IN_PROGRESS } htask2
  have hclose : ∃ st', _close_job
      (JobTaskManager.change_error_status (run_task_body env
        (JobTaskManager.change_in_progress_status st task).1
        (JobTaskManager.change_in_progress_status st task).2 task.domain_id topts).1
        (JobTaskManager.change_in_progress_status st task).2 e)
      task.job_id task.domain_id = Except.ok st' ∧
      st'.job_tasks = (JobTaskManager.change_error_status (run_task_body env
        (JobTaskManager.change_in_progress_status st task).1
        (JobTaskManager.change_in_progress_status st task).2 task.domain_id topts).1
        (JobTaskManager.change_in_progress_status st task).2 e).job_tasks := by
    by_cases h0 : job.remained_tasks - 1 = 0
    · rw [close_job_cases _ task.job_id task.domain_id _ hj3, if_pos (by simp [h0]),
        if_neg (by simp), if_pos (by simp)]
      exact ⟨_, rfl, (rollback_shape _ _).2.1⟩
    · rw [close_job_cases _ task.job_id task.domain_id _ hj3, if_neg (by simp [h0])]
      exact ⟨_, rfl, rfl⟩
  obtain ⟨st', hcl, htasks⟩ := hclose
  refine ⟨st', ?_, ?_⟩
  · rw [hmain, hout]
    exact hcl
  · rw [findTask_ext htasks]
    exact ht3

/-- C1 witness: a concrete run in which endpoint resolution raises; the
entry point returns normally, the task is recorded as ERROR with the
message, and the close step has been applied. -/
theorem get_cost_data_captures_all_failures_witness :
    ∃ st', get_cost_data envFail baseState [] "task-1" "dom-1" = Except.ok st' ∧
      findTask st' "task-1" "dom-1" =
        some
          { task1 with
            status := TaskStatus.ERROR, error_message := "plugin endpoint unreachable" } :=
  (get_cost_data_captures_all_failures envFail baseState [] "task-1" "dom-1" task1 job1
    rfl rfl).2 "plugin endpoint unreachable" rfl

/-- C6: whenever the batch-consumption loop completes without error, the
resulting count equals exactly the total number of rows in the results
lists of the consumed batches, the number of persisted cost records grew
by exactly that count (one record per row), and the success transition
records that count as the task's ingested_count. -/
theorem ingested_count_exact
    (env : Env) (t : JobTask) (batches : List Batch) (st st2 : State) (n : Nat)
    (h : ingest_batches env t batches 0 st = (st2, Except.ok n)) :
    n = (batches.map (fun b => (b.results.getD []).length)).sum ∧
    st2.costs.length = st.costs.length + n ∧
    (∀ (st3 : State) (tc : JobTask), findTask st3 t.job_task_id t.domain_id = some tc →
      findTask (JobTaskManager.change_success_status st3 t n) t.job_task_id t.domain_id =
        some { t with status := TaskStatus.SUCCESS, ingested_count := n }) := by
  obtain ⟨h1, h2⟩ := ingest_batches_ok env t batches 0 st st2 n h
  exact ⟨by omega, by omega,
    fun st3 tc htc => change_success_status_find_task st3 t n tc htc⟩

/-- C6 witness: the spec's two-batch scenario; the count is 2 and two
records are persisted. -/
theorem ingested_count_exact_witness :
    (2 : Nat) = (twoBatches.map (fun b => (b.results.getD []).length)).sum ∧
    (ingest_batches envOk task1 twoBatches 0 baseState).1.costs.length =
      baseState.costs.length + 2 ∧
    (∀ (st3 : State) (tc : JobTask),
      findTask st3 task1.job_task_id task1.domain_id = some tc →
      findTask (JobTaskManager.change_success_status st3 task1 2) task1.job_task_id
        task1.domain_id =
        some { task1 with status := TaskStatus.SUCCESS, ingested_count := 2 }) :=
  ingested_count_exact envOk task1 twoBatches baseState
    (ingest_batches envOk task1 twoBatches 0 baseState).1 2 (by rfl)

/-- C7: normalization of a raw row sets the provenance fields from the
owning task, defaults original_currency to USD and original_cost to 0,
and parses billed_at; a missing or unparsable billed_at raises, and a
single such row makes the whole batch consumption fail (the task, not the
row, fails). -/
theorem create_cost_data_normalization :
    (∀ (env : Env) (row : RawCost) (t : JobTask) (s : String) (ts : Nat),
      row.billed_at = some s → env.parseIso s = some ts →
      _create_cost_data env row t = Except.ok
        { job_id := t.job_id, data_source_id := t.data_source_id, domain_id := t.domain_id,
          original_currency := row.currency.getD "USD", original_cost := row.cost.getD 0,
          billed_at := ts }) ∧
    (∀ (env : Env) (row : RawCost) (t : JobTask), row.billed_at = none →
      ∃ e, _create_cost_data env row t = Except.error e) ∧
    (∀ (env : Env) (row : RawCost) (t : JobTask) (s : String),
      row.billed_at = some s → env.parseIso s = none →
      ∃ e, _create_cost_data env row t = Except.error e) ∧
    (∀ (env : Env) (t : JobTask) (batches : List Batch) (b : Batch) (row : RawCost),
      b ∈ batches → row ∈ b.results.getD [] →
      (∃ e, _create_cost_data env row t = Except.error e) →
      ∀ (count : Nat) (st : State),
        ∃ e2, (ingest_batches env t batches count st).2 = Except.error e2) := by
  refine ⟨?_, ?_, ?_, ?_⟩
  · intro env row t s ts hs hts
    simp [_create_cost_data, hs, hts]
  · intro env row t hnone
    refine ⟨"KeyError: billed_at", ?_⟩
    simp [_create_cost_data, hnone]
  · intro env row t s hs hts
    refine ⟨"ERROR_INVALID_ISO8601 billed_at", ?_⟩
    simp [_create_cost_data, hs, hts]
  · intro env t batches b row hb hrow hbad count st
    exact ingest_batches_err env t b row hrow hbad batches count st hb

/-- C7 witness: the USD row of the spec's scenario normalizes to the
expected record, and a batch containing a row with an unparsable
billed_at makes the whole consumption fail. -/
theorem create_cost_data_normalization_witness :
    _create_cost_data envOk rowUSD task1 = Except.ok
      { job_id := "job-1", data_source_id := "ds-1", domain_id := "dom-1",
        original_currency := "USD", original_cost := 10, billed_at := 1000 } ∧
    ∃ e2, (ingest_batches envBad task1 [badBatch] 0 baseState).2 = Except.error e2 := by
  constructor
  · exact create_cost_data_normalization.1 envOk rowUSD task1 "2023-01-01T00:00:00Z" 1000
      rfl rfl
  · exact create_cost_data_normalization.2.2.2 envBad task1 [badBatch] badBatch badRow
      (by decide) (by decide) ⟨"ERROR_INVALID_ISO8601 billed_at", rfl⟩ 0 baseState

/-- C8: with no secret_id configured the secret data resolves to the empty
mapping (and with one configured it is fetched from the secret manager for
that id and domain); when the resolution steps succeed with no secret_id,
the plugin fetch proceeds and is invoked with the empty secret mapping. -/
theorem secret_data_resolution :
    (∀ (env : Env) (did : String), _get_secret_data env none did = Except.ok []) ∧
    (∀ (env : Env) (sid did : String), sid ≠ "" →
      _get_secret_data env (some sid) did = env.getSecret sid did) ∧
    (∀ (env : Env) (st : State) (t : JobTask) (did : String)
        (topts : List (String × String)) (ds : DataSource) (ep : String × Option String),
      DataSourceManager.get_data_source st t.data_source_id did = Except.ok ds →
      ds.plugin_info.secret_id = none →
      env.resolveEndpoint ds.plugin_info did = Except.ok ep →
      env.init_plugin ep.1 = Except.ok Unit.unit →
      Event.fetchStart ds.plugin_info.options [] ds.plugin_info.schema ∈
        (run_task_body env st t did topts).1.trace) := by
  refine ⟨?_, ?_, ?_⟩
  · intro env did
    rfl
  · intro env sid did hne
    simp [_get_secret_data, hne]
  · intro env st t did topts ds ep hds hsid hep hinit
    simp only [run_task_body, hds, hep, hinit, hsid, _get_secret_data]
    obtain ⟨tl, htl⟩ := ingest_batches_trace env t
      (env.fetch ds.plugin_info.options [] ds.plugin_info.schema topts).1 0
      (addTrace st (Event.fetchStart ds.plugin_info.options [] ds.plugin_info.schema))
    cases hing : ingest_batches env t
        (env.fetch ds.plugin_info.options [] ds.plugin_info.schema topts).1 0
        (addTrace st (Event.fetchStart ds.plugin_info.options [] ds.plugin_info.schema)) with
    | mk st2 res =>
      rw [hing] at htl
      cases res with
      | error e =>
        show Event.fetchStart ds.plugin_info.options [] ds.plugin_info.schema ∈ st2.trace
        rw [htl]
        simp [addTrace]
      | ok count =>
        cases hse : (env.fetch ds.plugin_info.options [] ds.plugin_info.schema topts).2 with
        | some e2 =>
          show Event.fetchStart ds.plugin_info.options [] ds.plugin_info.schema ∈ st2.trace
          rw [htl]
          simp [addTrace]
        | none =>
          show Event.fetchStart ds.plugin_info.options [] ds.plugin_info.schema ∈ st2.trace
          rw [htl]
          simp [addTrace]

/-- C8 witness: the fixture data source has no secret_id; the secret data
is the empty mapping, and the concrete run reaches the fetch with it. -/
theorem secret_data_resolution_witness :
    _get_secret_data envOk none "dom-1" = Except.ok [] ∧
    _get_secret_data envOk (some "sec-1") "dom-1" = envOk.getSecret "sec-1" "dom-1" ∧
    Event.fetchStart [("raw_filter", "all")] [] none ∈
      (run_task_body envOk baseState task1 "dom-1" []).1.trace :=
  ⟨secret_data_resolution.1 envOk "dom-1",
   secret_data_resolution.2.1 envOk "sec-1" "dom-1" (by decide),
   secret_data_resolution.2.2 envOk baseState task1 "dom-1" [] ds1 ("grpc-endpoint", none)
     rfl rfl rfl rfl⟩

theorem foldl_append_map {α β : Type} (f : α → β) :
    ∀ (l : List α) (acc : List β),
      l.foldl (fun a x => a ++ [f x]) acc = acc ++ l.map f := by
  intro l
  induction l with
  | nil => intro acc; simp
  | cons x xs ih => intro acc; simp [ih]

/-- C9: BudgetInfo with minimal true populates exactly the six identity
fields from the value object and leaves every detail field unset; with
minimal false the identity fields are populated the same way and every
detail field is populated from the corresponding attribute through its
converter. -/
theorem budget_info_minimal_fields (vo : Budget) :
    ((BudgetInfo vo true).budget_id = vo.budget_id ∧
     (BudgetInfo vo true).name = vo.name ∧
     (BudgetInfo vo true).limit = vo.limit ∧
     (BudgetInfo vo true).total_usd_cost = vo.total_usd_cost ∧
     (BudgetInfo vo true).project_id = vo.project_id ∧
     (BudgetInfo vo true).project_group_id = vo.project_group_id) ∧
    ((BudgetInfo vo true).planned_limits = none ∧
     (BudgetInfo vo true).monthly_costs = none ∧
     (BudgetInfo vo true).cost_types = none ∧
     (BudgetInfo vo true).time_unit = none ∧
     (BudgetInfo vo true).start = none ∧
     (BudgetInfo vo true).end_ = none ∧
     (BudgetInfo vo true).notifications = none ∧
     (BudgetInfo vo true).tags = none ∧
     (BudgetInfo vo true).domain_id = none ∧
     (BudgetInfo vo true).created_at = none ∧
     (BudgetInfo vo true).updated_at = none) ∧
    ((BudgetInfo vo false).budget_id = vo.budget_id ∧
     (BudgetInfo vo false).name = vo.name ∧
     (BudgetInfo vo false).limit = vo.limit ∧
     (BudgetInfo vo false).total_usd_cost = vo.total_usd_cost ∧
     (BudgetInfo vo false).project_id = vo.project_id ∧
     (BudgetInfo vo false).project_group_id = vo.project_group_id ∧
     (BudgetInfo vo false).planned_limits = some (PlannedLimitsInfo vo.planned_limits) ∧
     (BudgetInfo vo false).monthly_costs = some (MonthlyBudgetCostsInfo vo.monthly_costs) ∧
     (BudgetInfo vo false).cost_types = change_struct_type vo.cost_types ∧
     (BudgetInfo vo false).time_unit = some vo.time_unit ∧
     (BudgetInfo vo false).start = date_to_string vo.start ∧
     (BudgetInfo vo false).end_ = date_to_string vo.end_ ∧
     (BudgetInfo vo false).notifications = some (BudgetNotificationsInfo vo.notifications) ∧
     (BudgetInfo vo false).tags = change_struct_type vo.tags ∧
     (BudgetInfo vo false).domain_id = some vo.domain_id ∧
     (BudgetInfo vo false).created_at = datetime_to_iso8601 vo.created_at ∧
     (BudgetInfo vo false).updated_at = datetime_to_iso8601 vo.updated_at) := by
  refine ⟨⟨rfl, rfl, rfl, rfl, rfl, rfl⟩,
    ⟨rfl, rfl, rfl, rfl, rfl, rfl, rfl, rfl, rfl, rfl, rfl⟩,
    rfl, rfl, rfl, rfl, rfl, rfl, rfl, rfl, ?_, rfl, rfl, rfl, rfl, rfl, rfl, rfl, rfl⟩
  cases h : vo.cost_types with
  | none => simp [BudgetInfo, h, change_struct_type]
  | some m => simp [BudgetInfo, h, change_struct_type]

/-- C10: each list converter maps None to the empty list, and otherwise
produces a list of the same length whose i-th element is the field-wise
conversion of the i-th input element, order preserved. -/
theorem budget_list_converters :
    (PlannedLimitsInfo none = [] ∧ MonthlyBudgetCostsInfo none = [] ∧
      BudgetNotificationsInfo none = []) ∧
    (∀ l : List PlannedLimit,
      (PlannedLimitsInfo (some l)).length = l.length ∧
      ∀ i : Nat, (PlannedLimitsInfo (some l))[i]? =
        (l[i]?).map (fun vo => ({ date := vo.date, limit := vo.limit } : PlannedLimitMsg))) ∧
    (∀ l : List MonthlyCost,
      (MonthlyBudgetCostsInfo (some l)).length = l.length ∧
      ∀ i : Nat, (MonthlyBudgetCostsInfo (some l))[i]? =
        (l[i]?).map (fun vo =>
          ({ date := vo.date, usd_cost := vo.usd_cost } : MonthlyBudgetCostMsg))) ∧
    (∀ l : List Notification,
      (BudgetNotificationsInfo (some l)).length = l.length ∧
      ∀ i : Nat, (BudgetNotificationsInfo (some l))[i]? =
        (l[i]?).map (fun vo =>
          ({ threshold := vo.threshold, unit := vo.unit,
             notification_type := vo.notification_type } : BudgetNotificationMsg))) := by
  have hp : ∀ l : List PlannedLimit, PlannedLimitsInfo (some l) =
      l.map (fun vo => ({ date := vo.date, limit := vo.limit } : PlannedLimitMsg)) := by
    intro l
    simp [PlannedLimitsInfo, foldl_append_map]
  have hm : ∀ l : List MonthlyCost, MonthlyBudgetCostsInfo (some l) =
      l.map (fun vo => ({ date := vo.date, usd_cost := vo.usd_cost } : MonthlyBudgetCostMsg)) := by
    intro l
    simp [MonthlyBudgetCostsInfo, foldl_append_map]
  have hn : ∀ l : List Notification, BudgetNotificationsInfo (some l) =
      l.map (fun vo =>
        ({ threshold := vo.threshold, unit := vo.unit,
           notification_type := vo.notification_type } : BudgetNotificationMsg)) := by
    intro l
    simp [BudgetNotificationsInfo, foldl_append_map]
  refine ⟨⟨rfl, rfl, rfl⟩, ?_, ?_, ?_⟩
  · intro l
    rw [hp l]
    exact ⟨List.length_map _ _, fun i => List.getElem?_map _ _ _⟩
  · intro l
    rw [hm l]
    exact ⟨List.length_map _ _, fun i => List.getElem?_map _ _ _⟩
  · intro l
    rw [hn l]
    exact ⟨List.length_map _ _, fun i => List.getElem?_map _ _ _⟩

end CostAnalysis
